import Mathlib

/-!
Verification of the lead-qualification pipeline in `app.py`
(Realbureis/carrinho-abandonado-streamlit).

The pipeline is `process_data(df_input)` together with its helpers
`format_name_and_create_message` and `format_brl`.  We embed the pandas
DataFrame manipulations shallowly:

* a DataFrame is a `Table`: a list of column names plus a list of rows,
  each row a list of `Cell`s aligned with the column list;
* a cell is a string, a number, or the missing value `NaN` (`Cell.null`);
  grouping and duplicate detection treat `null` as an ordinary key value,
  matching `drop_duplicates`;
* numbers are exact decimals `Dec` (integer mantissa over a power of ten,
  kept normalized so that structural equality is value equality) in place
  of 64-bit binary floats; every numeric value exercised by the theorems
  below is exactly representable in both;
* `pd.to_numeric(..., errors='coerce')` is a total parser returning
  `Option Dec`; Python `float`-literal syntax (sign, digits with optional
  fraction, optional exponent) is modelled, special values such as
  `inf`/`nan` and digit underscores are not — they parse to `none`, which
  coincides with the `NaN → fillna(-1)` result for `nan`;
* Python string primitives (`strip`, `split(' ')`, `replace`) are
  re-implemented on character lists so that every definition evaluates
  inside the kernel.
-/

/-- An exact decimal number `m / 10 ^ e`.  All constructions below go
through `normDec`, so the representation is normalized (`e = 0`, or the
mantissa is not divisible by ten) and structural equality coincides with
value equality — mirroring equality of float values in pandas. -/
structure Dec where
  m : Int
  e : Nat
deriving DecidableEq

/-- Strip trailing decimal zeros: the normalizing constructor for `Dec`. -/
def normDec : Int → Nat → Dec
  | m, 0 => ⟨m, 0⟩
  | m, e + 1 => if m % 10 = 0 then normDec (m / 10) e else ⟨m, e + 1⟩

/-- The integer `n` as a `Dec`. -/
def Dec.ofInt (n : Int) : Dec := ⟨n, 0⟩

/-- Negation of a `Dec` (normalization is preserved). -/
def Dec.neg (d : Dec) : Dec := ⟨-d.m, d.e⟩

/-- Multiply a `Dec` by `10 ^ k`. -/
def Dec.mulPow10 (d : Dec) (k : Nat) : Dec :=
  if k ≤ d.e then ⟨d.m, d.e - k⟩ else ⟨d.m * (10 : Int) ^ (k - d.e), 0⟩

/-- Divide a `Dec` by `10 ^ k`. -/
def Dec.divPow10 (d : Dec) (k : Nat) : Dec := normDec d.m (d.e + k)

/-- The decimal with integer part `ip` and fractional digits worth
`fp / 10 ^ fl`: the value of a literal `ip.fp` with `fl` fraction digits. -/
def Dec.fromParts (ip fp fl : Nat) : Dec :=
  normDec ((ip : Int) * (10 : Int) ^ fl + (fp : Int)) fl

/-- The rational value of a `Dec` (used only to state values readably). -/
def Dec.toRat (d : Dec) : ℚ := (d.m : ℚ) / (10 : ℚ) ^ d.e

/-- Decimal rendering of a `Dec`, standing in for Python's float-to-string
conversion; no theorem below exercises it on a non-integral value. -/
def Dec.render (d : Dec) : String :=
  if d.e = 0 then toString d.m
  else
    let den := (10 : Nat) ^ d.e
    let a := d.m.natAbs
    let fs := toString (a % den)
    (if d.m < 0 then "-" else "") ++ toString (a / den) ++ "." ++
      String.mk (List.replicate (d.e - fs.length) '0') ++ fs

/-- A cell of the input spreadsheet: a string, a number, or missing (`NaN`). -/
inductive Cell where
  | str (s : String)
  | num (d : Dec)
  | null
deriving DecidableEq

/-- A DataFrame row: the list of cells, aligned with the table's column list. -/
abbrev Row := List Cell

/-- A pandas DataFrame: column names plus rows. -/
structure Table where
  cols : List String
  rows : List Row
deriving DecidableEq

/-- `COL_ID = 'Codigo Cliente'` (app.py line 13). -/
def COL_ID : String := "Codigo Cliente"

/-- `COL_NAME = 'Cliente'` (app.py line 14). -/
def COL_NAME : String := "Cliente"

/-- `COL_PHONE = 'Fone Fixo'` (app.py line 15). -/
def COL_PHONE : String := "Fone Fixo"

/-- `COL_FILTER = 'Quant. Pedidos Enviados'` (app.py line 16). -/
def COL_FILTER : String := "Quant. Pedidos Enviados"

/-- `COL_STATUS = 'Status'` (app.py line 17). -/
def COL_STATUS : String := "Status"

/-- `COL_ORDER_ID = 'N. Pedido'` (app.py line 18). -/
def COL_ORDER_ID : String := "N. Pedido"

/-- `COL_TOTAL_VALUE = 'Valor Total'` (app.py line 19). -/
def COL_TOTAL_VALUE : String := "Valor Total"

/-- `COL_OUT_NAME = 'Cliente_Formatado'` (app.py line 21). -/
def COL_OUT_NAME : String := "Cliente_Formatado"

/-- `COL_OUT_MSG = 'Mensagem_Personalizada'` (app.py line 22). -/
def COL_OUT_MSG : String := "Mensagem_Personalizada"

/-- The `'Valor_BRL'` display column added at app.py line 125. -/
def COL_BRL : String := "Valor_BRL"

/-- The target status string `'Pedido Salvo'` (app.py lines 56 and 61). -/
def targetLabel : String := "Pedido Salvo"

/-- `required_cols` (app.py line 34). -/
def requiredCols : List String :=
  [COL_ID, COL_NAME, COL_PHONE, COL_FILTER, COL_STATUS, COL_ORDER_ID, COL_TOTAL_VALUE]

/-- Index of the first column with the given name, `none` when absent. -/
def colIdx : List String → String → Option Nat
  | [], _ => none
  | c :: cs, name => if c = name then some 0 else (colIdx cs name).map (· + 1)

/-- Read the cell at an optional column index (missing index reads `null`). -/
def getAt (i : Option Nat) (r : Row) : Cell :=
  match i with
  | some j => r.getD j Cell.null
  | none => Cell.null

/-- Write the cell at an optional column index (missing index: no change). -/
def setAt (i : Option Nat) (r : Row) (c : Cell) : Row :=
  match i with
  | some j => r.set j c
  | none => r

/-- The `Codigo Cliente` cell of a row. -/
def idOf (cols : List String) (r : Row) : Cell := getAt (colIdx cols COL_ID) r

/-- The `Status` cell of a row. -/
def statusOf (cols : List String) (r : Row) : Cell := getAt (colIdx cols COL_STATUS) r

/-- The `Quant. Pedidos Enviados` cell of a row. -/
def attemptsOf (cols : List String) (r : Row) : Cell := getAt (colIdx cols COL_FILTER) r

/-- The `Cliente` cell of a row. -/
def nameOf (cols : List String) (r : Row) : Cell := getAt (colIdx cols COL_NAME) r

/-- The `Valor Total` cell of a row. -/
def valueOf (cols : List String) (r : Row) : Cell := getAt (colIdx cols COL_TOTAL_VALUE) r

/-- `not all(col in df.columns for col in required_cols)` negated
(app.py line 35): the schema check passes iff every required column is present. -/
def schemaOk (t : Table) : Bool :=
  requiredCols.all (fun c => decide (c ∈ t.cols))

/-- `missing = [col for col in required_cols if col not in df.columns]`
(app.py line 36): the complete list of absent required columns, in
`required_cols` order. -/
def missingCols (t : Table) : List String :=
  requiredCols.filter (fun c => decide (c ∉ t.cols))

/-- Python `str.isspace` characters (ASCII range). -/
def isPySpace (c : Char) : Bool :=
  c = ' ' || c = '\t' || c = '\n' || c = '\x0d' || c = '\x0b' || c = '\x0c'

/-- Python `str.strip()` on a character list: drop whitespace at both ends. -/
def stripChars (cs : List Char) : List Char :=
  ((cs.dropWhile isPySpace).reverse.dropWhile isPySpace).reverse

/-- Python `str.split(' ')` on a character list: split at every single
space, keeping empty fields; splitting the empty string yields `[[]]`. -/
def splitOnSpace : List Char → List (List Char)
  | [] => [[]]
  | c :: cs =>
      if c = ' ' then [] :: splitOnSpace cs
      else
        match splitOnSpace cs with
        | [] => [[c]]
        | h :: t => (c :: h) :: t

/-- One fuel-counted step list for Python `str.replace`: scan left to
right, replacing each non-overlapping occurrence of `pat`.  The fuel (the
input length at the call sites, where `pat` is never empty) makes the
recursion structural. -/
def replaceFuel (pat repl : List Char) : Nat → List Char → List Char
  | _, [] => []
  | 0, cs => cs
  | fuel + 1, c :: cs =>
      if pat ≠ [] ∧ pat.isPrefixOf (c :: cs) then
        repl ++ replaceFuel pat repl fuel ((c :: cs).drop pat.length)
      else c :: replaceFuel pat repl fuel cs

/-- Python `s.replace(pat, repl)` for a non-empty pattern. -/
def pyReplace (s pat repl : String) : String :=
  String.mk (replaceFuel pat.data repl.data s.data.length s.data)

/-- Accumulated value of a digit list (most significant first). -/
def digitsToNat (ds : List Char) : Nat :=
  ds.foldl (fun a c => a * 10 + (c.toNat - 48)) 0

/-- Sign prefix of a Python numeric literal: `true` means negative. -/
def parseSign : List Char → Bool × List Char
  | '-' :: rest => (true, rest)
  | '+' :: rest => (false, rest)
  | cs => (false, cs)

/-- Mantissa of a Python float literal: digits with an optional fractional
part (`12`, `12.`, `12.5`, `.5`); returns its value and the unread rest. -/
def parseMantissa (cs : List Char) : Option (Dec × List Char) :=
  let intd := cs.takeWhile Char.isDigit
  let rest := cs.dropWhile Char.isDigit
  match rest with
  | '.' :: rest2 =>
      let fracd := rest2.takeWhile Char.isDigit
      let rest3 := rest2.dropWhile Char.isDigit
      if intd.isEmpty && fracd.isEmpty then none
      else some (Dec.fromParts (digitsToNat intd) (digitsToNat fracd) fracd.length, rest3)
  | _ => if intd.isEmpty then none else some (Dec.ofInt (digitsToNat intd), rest)

/-- Exponent suffix after `e`/`E`: optional sign then digits; scales `m`. -/
def applyExponent (m : Dec) (cs : List Char) : Option Dec :=
  let (neg, cs1) := parseSign cs
  let ed := cs1.takeWhile Char.isDigit
  let rest := cs1.dropWhile Char.isDigit
  if ed.isEmpty || !rest.isEmpty then none
  else some (if neg then m.divPow10 (digitsToNat ed) else m.mulPow10 (digitsToNat ed))

/-- Python `float(s)` on a string, as used by `pd.to_numeric`: strip
whitespace, optional sign, mantissa, optional exponent.  Unparsable input
(including the special values `inf`/`nan`, which are not modelled) is `none`. -/
def parsePyFloat (s : String) : Option Dec :=
  let cs := stripChars s.data
  let (neg, cs1) := parseSign cs
  match parseMantissa cs1 with
  | none => none
  | some (m, rest) =>
      let v := if neg then m.neg else m
      match rest with
      | [] => some v
      | 'e' :: rest2 => applyExponent v rest2
      | 'E' :: rest2 => applyExponent v rest2
      | _ => none

/-- `pd.to_numeric(cell, errors='coerce')`: numbers pass through, strings are
parsed, anything unparsable (and `NaN`) coerces to `NaN` (`none`). -/
def pyToNumeric (c : Cell) : Option Dec :=
  match c with
  | Cell.num d => some d
  | Cell.str s => parsePyFloat s
  | Cell.null => none

/-- `pd.to_numeric(df[COL_FILTER], errors='coerce').fillna(-1)` on one cell
(app.py line 53): unparsable cells become the sentinel `-1`. -/
def normalizeAttempts (c : Cell) : Dec :=
  (pyToNumeric c).getD (Dec.ofInt (-1))

/-- App.py line 53 applied to one row: overwrite the `Quant. Pedidos
Enviados` cell with its normalized numeric value. -/
def normalizeRow (cols : List String) (r : Row) : Row :=
  setAt (colIdx cols COL_FILTER) r (Cell.num (normalizeAttempts (attemptsOf cols r)))

/-- `df.drop_duplicates(subset=[COL_ID], keep='first')` (app.py line 46):
keep the first row for each distinct `Codigo Cliente` value; `seen` is the
set of key values already kept. -/
def dedupFirst (cols : List String) : List Row → List Cell → List Row
  | [], _ => []
  | r :: rs, seen =>
      if idOf cols r ∈ seen then dedupFirst cols rs seen
      else r :: dedupFirst cols rs (idOf cols r :: seen)

/-- The deduplicated table rows with the attempts column normalized:
app.py line 46 followed by line 53. -/
def dedupedNormalized (t : Table) : List Row :=
  (dedupFirst t.cols t.rows []).map (normalizeRow t.cols)

/-- `clientes_com_outro_status` for one row (app.py lines 56-57): some row
of `d` with the same `Codigo Cliente` has a `Status` cell different from
`'Pedido Salvo'`.  Note `d` is the **deduplicated** table: line 57 runs
after line 46 reassigned `df = df_unique`. -/
def hasOtherOf (cols : List String) (d : List Row) (r : Row) : Bool :=
  d.any (fun r2 =>
    decide (idOf cols r2 = idOf cols r) && decide (statusOf cols r2 ≠ Cell.str targetLabel))

/-- The boolean mask of app.py lines 60-64 applied to one row of `d`. -/
def rowQualifies (cols : List String) (d : List Row) (r : Row) : Bool :=
  decide (statusOf cols r = Cell.str targetLabel) &&
  !hasOtherOf cols d r &&
  decide (attemptsOf cols r = Cell.num (Dec.ofInt 0))

/-- `df_qualified = df[mask]` (app.py lines 60-64) over a deduplicated,
normalized row list. -/
def filterQualified (cols : List String) (d : List Row) : List Row :=
  d.filter (rowQualifies cols d)

/-- The rows of `df_qualified` for an input table: dedup, normalize, filter
(app.py lines 46-64). -/
def qualifiedRows (t : Table) : List Row :=
  filterQualified t.cols (dedupedNormalized t)

/-- `str(cell)` for non-string cells, needed by `astype(str)` (app.py line
105) and `str(value)` (app.py lines 120 and 123).  `NaN` renders as
`"nan"`. -/
def pyStrCell : Cell → String
  | Cell.str s => s
  | Cell.num d => d.render
  | Cell.null => "nan"

/-- The sales message template of app.py lines 90-97 rendered with a given
first name. -/
def salesMessage (first_name : String) : String :=
  "Olá " ++ first_name ++ "! Aqui é a Sofia, sua consultora exclusiva da Jumbo CDP!\n" ++
  "Tenho uma ótima notícia para você.\n\n" ++
  "Vi que você iniciou seu cadastro, mas não conseguiu finalizar a compra.\n" ++
  "Para eu te ajudar, poderia me contar o motivo?\n\n" ++
  "Consegui separar *UM BRINDE ESPECIAL* para incluir no seu pedido, e quero garantir que você receba tudo certinho.\n\n" ++
  "Conte comigo para cuidar de você!"

/-- Python `str.capitalize()` (app.py line 87): first character uppercased,
every remaining character lowercased (ASCII case maps suffice for the
inputs considered). -/
def pyCapitalize (s : String) : String :=
  match s.data with
  | [] => ""
  | c :: cs => String.mk (Char.toUpper c :: cs.map Char.toLower)

/-- `full_name_str.split(' ')[0]` of the stripped name (app.py lines 84-86):
Python `split` with an explicit separator keeps empty fields, and splitting
the empty string yields `[""]`, so the head always exists. -/
def firstToken (s : String) : String :=
  String.mk ((splitOnSpace (stripChars s.data)).headD [])

/-- `format_name_and_create_message(full_name)` (app.py lines 79-100).
`none` models Python `None`; `if not full_name` is true exactly for `None`
and the empty string. -/
def formatNameAndCreateMessage (full_name : Option String) : String × String :=
  let first_name :=
    match full_name with
    | none => "Cliente"
    | some s => if s = "" then "Cliente" else pyCapitalize (firstToken s)
  (first_name, salesMessage first_name)

/-- Python `f"{x:.2f}"` on the value of a `Dec`: fixed two-decimal
rendering with `.` as decimal point, rounding half to even. -/
def fixed2 (d : Dec) : String :=
  let den := (10 : Nat) ^ d.e
  let a := d.m.natAbs * 100
  let f := a / den
  let r := a % den
  let n := if 2 * r < den then f else if den < 2 * r then f + 1 else if f % 2 = 0 then f else f + 1
  (if d.m < 0 then "-" else "") ++ toString (n / 100) ++ "." ++
    (if n % 100 < 10 then "0" else "") ++ toString (n % 100)

/-- `format_brl(value)` (app.py lines 118-123): strip `R$`, drop `.`
thousands marks, turn the decimal `,` into `.`, parse as float and render
`f"R$ {x:.2f}".replace('.', ',')`; on parse failure return `str(value)`
unchanged. -/
def formatBrl (value : Cell) : String :=
  let value_str := pyReplace (pyReplace (pyReplace (pyStrCell value) "R$" "") "." "") "," "."
  match parsePyFloat value_str with
  | some d => pyReplace ("R$ " ++ fixed2 d) "." ","
  | none => pyStrCell value

/-- App.py line 105 on one row: `df[COL_NAME] = df[COL_NAME].astype(str)`
(the following `.fillna('')` is a no-op since `astype(str)` leaves no `NaN`). -/
def astypeNameRow (cols : List String) (r : Row) : Row :=
  setAt (colIdx cols COL_NAME) r (Cell.str (pyStrCell (nameOf cols r)))

/-- App.py lines 108-115 on one row: apply
`format_name_and_create_message` to the (already stringified) name cell and
append the `Cliente_Formatado` and `Mensagem_Personalizada` cells. -/
def addMsgCols (cols : List String) (r : Row) : Row :=
  r ++ [Cell.str (formatNameAndCreateMessage (some (pyStrCell (nameOf cols r)))).1,
        Cell.str (formatNameAndCreateMessage (some (pyStrCell (nameOf cols r)))).2]

/-- App.py line 125 on one row: append the `Valor_BRL` cell computed by
`format_brl` from the `Valor Total` cell. -/
def addBrlCol (cols : List String) (r : Row) : Row :=
  r ++ [Cell.str (formatBrl (valueOf cols r))]

/-- Lines 105-125 combined on one qualified row. -/
def enrichRow (cols : List String) (r : Row) : Row :=
  addBrlCol cols (addMsgCols cols (astypeNameRow cols r))

/-- The metrics dictionary of app.py lines 39-43, 47 and 66. -/
structure Metrics where
  original_count : Nat
  removed_duplicates : Nat
  removed_filter : Nat
deriving DecidableEq

/-- The final value of the `metrics` dictionary (app.py lines 39-43, 47, 66):
`original_count = len(df)` on the copy, `removed_duplicates = len(df) -
len(df_unique)` (line 47), `removed_filter = len(df_input) -
len(df_qualified)` (line 66 — relative to the **original**, pre-dedup count). -/
def metricsOf (t : Table) : Metrics :=
  { original_count := t.rows.length
    removed_duplicates := t.rows.length - (dedupFirst t.cols t.rows []).length
    removed_filter := t.rows.length - (qualifiedRows t).length }

/-- `process_data(df_input)` (app.py lines 27-127).  Python's
`raise ValueError(...)` is the `Except.error` branch carrying the list of
missing columns; otherwise the function returns the result table and the
metrics.  When `df_qualified` is empty the function returns it immediately
(lines 72-73) with the input's column shape; otherwise lines 105-125 append
the three derived columns. -/
def processData (t : Table) : Except (List String) (Table × Metrics) :=
  if schemaOk t then
    if (qualifiedRows t).isEmpty then
      Except.ok (⟨t.cols, qualifiedRows t⟩, metricsOf t)
    else
      Except.ok (⟨t.cols ++ [COL_OUT_NAME, COL_OUT_MSG, COL_BRL],
                  (qualifiedRows t).map (enrichRow t.cols)⟩, metricsOf t)
  else Except.error (missingCols t)

/-- The row-wise eligibility filter stated by the claim: keep a
deduplicated row iff its own `Status` is `'Pedido Salvo'` and its
normalized attempts count is `0`, with no grouped has-other-status
computation.  (This definition follows the claim's words, to be compared
with `qualifiedRows`, which follows the code.) -/
def rowwiseQualifiedRows (t : Table) : List Row :=
  (dedupedNormalized t).filter (fun r =>
    decide (statusOf t.cols r = Cell.str targetLabel) &&
    decide (attemptsOf t.cols r = Cell.num (Dec.ofInt 0)))

/-- Example input: two raw rows for customer `42`, the first with status
`'Pedido Salvo'` and attempts `0`, the second with a different status
(the scenario of the status-exclusivity claim). -/
def tblTwoStatuses : Table :=
  ⟨requiredCols,
   [[Cell.str "42", Cell.str "ana maria", Cell.str "(11) 91234-5678", Cell.str "0",
     Cell.str "Pedido Salvo", Cell.str "P1", Cell.str "R$ 1.234,50"],
    [Cell.str "42", Cell.str "ana maria", Cell.str "(11) 91234-5678", Cell.str "1",
     Cell.str "Pedido Cancelado", Cell.str "P2", Cell.str "R$ 10,00"]]⟩

/-- Example input: two identical rows for customer `7` whose status is not
the target, so one is removed as a duplicate and none qualifies. -/
def tblDupRows : Table :=
  ⟨requiredCols,
   [[Cell.str "7", Cell.str "bruno", Cell.str "11 5555-0000", Cell.str "3",
     Cell.str "Pedido Enviado", Cell.str "P7", Cell.str "R$ 5,00"],
    [Cell.str "7", Cell.str "bruno", Cell.str "11 5555-0000", Cell.str "3",
     Cell.str "Pedido Enviado", Cell.str "P7", Cell.str "R$ 5,00"]]⟩

/-- Example input with only two of the seven required columns present. -/
def tblMissingCols : Table :=
  ⟨[COL_NAME, COL_STATUS], [[Cell.str "ana", Cell.str "Pedido Salvo"]]⟩

/-- Example input with a single non-qualifying row (status not the target),
so the qualified list is empty. -/
def tblNoLeads : Table :=
  ⟨requiredCols,
   [[Cell.str "9", Cell.str "carla", Cell.str "11 4444-0000", Cell.str "0",
     Cell.str "Pedido Enviado", Cell.str "P9", Cell.str "R$ 2,00"]]⟩

/-- Example input with a single qualifying row: status `'Pedido Salvo'`,
attempts `0`. -/
def tblOneLead : Table :=
  ⟨requiredCols,
   [[Cell.str "5", Cell.str "davi luiz", Cell.str "11 3333-0000", Cell.str "0",
     Cell.str "Pedido Salvo", Cell.str "P5", Cell.str "R$ 9,90"]]⟩

/-- The single row of `tblOneLead` after attempts normalization: the row
that survives in `qualifiedRows tblOneLead`. -/
def rowOneLead : Row :=
  [Cell.str "5", Cell.str "davi luiz", Cell.str "11 3333-0000", Cell.num (Dec.ofInt 0),
   Cell.str "Pedido Salvo", Cell.str "P5", Cell.str "R$ 9,90"]

/-- C1: the claim requires that customer 42 of `tblTwoStatuses` — whose raw
history contains a non-target status — not appear in the qualified list.
The code deduplicates (line 46) before the grouped status check (lines
56-57), so the check sees only the surviving target-status row and customer
42 DOES appear: `process_data` returns exactly one qualified lead, with
`Codigo Cliente` 42.  This contradicts the claim (and the grouped
whole-history check the code itself sets out to perform). -/
theorem C1_code_eval :
    (qualifiedRows tblTwoStatuses).map (idOf tblTwoStatuses.cols) = [Cell.str "42"] ∧
    (processData tblTwoStatuses).toOption.map (fun p => p.1.rows.length) = some 1 := by
  exact ⟨by decide, by rfl⟩

/-- C2 counterexample: on `tblDupRows` the code yields `original_count = 2`,
`removed_duplicates = 1`, `removed_filter = 2` and zero leads, so
`original_count ≠ removed_duplicates + removed_filter + len(qualified)`
(`2 ≠ 1 + 2 + 0`): `removed_filter` is computed against the pre-dedup
count and double-counts the removed duplicate. -/
theorem C2_counterexample :
    processData tblDupRows = Except.ok (⟨requiredCols, []⟩, ⟨2, 1, 2⟩) ∧
    (2 : Nat) ≠ 1 + 2 + 0 := by
  exact ⟨by rfl, by decide⟩

/-- C3 counterexample: the formatter renders `"R$ 1.234,50"` back as
`"R$ 1234,50"` — the thousands separator is lost, so the claimed exact
round-trip to `"R$ 1.234,50"` fails. -/
theorem C3_counterexample :
    formatBrl (Cell.str "R$ 1.234,50") = "R$ 1234,50" ∧
    formatBrl (Cell.str "R$ 1.234,50") ≠ "R$ 1.234,50" := by
  exact ⟨by decide, by decide⟩

/-- C3 as amended: `"R$ 1.234,50"` normalizes to the exact value `1234.50`
and renders as `"R$ 1234,50"` (two decimals, comma decimal separator, no
thousands separator), and the unparsable `"n/a"` is returned unchanged. -/
theorem C3_amended :
    parsePyFloat (pyReplace (pyReplace (pyReplace "R$ 1.234,50" "R$" "") "." "") "," ".") =
      some ⟨12345, 1⟩ ∧
    Dec.toRat ⟨12345, 1⟩ = (1234.5 : ℚ) ∧
    formatBrl (Cell.str "R$ 1.234,50") = "R$ 1234,50" ∧
    formatBrl (Cell.str "n/a") = "n/a" := by
  refine ⟨by decide, ?_, by decide, by decide⟩
  norm_num [Dec.toRat]

/-- C4 counterexample: on the whitespace-only name `" "` the composer
produces the empty display first name, not the literal `"Cliente"` — the
`if not full_name` guard is false for a non-empty whitespace string, and
`" ".strip().split(' ')[0].capitalize()` is `""`. -/
theorem C4_counterexample :
    (formatNameAndCreateMessage (some " ")).fst = "" ∧
    (formatNameAndCreateMessage (some " ")).fst ≠ "Cliente" := by
  exact ⟨by decide, by decide⟩

/-- C4 as amended: a null or empty `full_name` yields the literal
`"Cliente"`; a whitespace-only name yields the **empty** display first
name; for every input the composer is total and returns the message fully
rendered from the derived first name (it never raises). -/
theorem C4_amended :
    (formatNameAndCreateMessage none).fst = "Cliente" ∧
    (formatNameAndCreateMessage (some "")).fst = "Cliente" ∧
    ∀ x : Option String,
      (formatNameAndCreateMessage x).snd = salesMessage (formatNameAndCreateMessage x).fst := by
  refine ⟨rfl, rfl, ?_⟩
  intro x
  cases x <;> rfl

/-- C5 counterexample: on the first name `"mcDONALD"` the composer yields
`"Mcdonald"` — Python `str.capitalize()` lowercases the remainder — not
the `"McDONALD"` the claim (first character forced, remaining case
unchanged) would require. -/
theorem C5_counterexample :
    (formatNameAndCreateMessage (some "mcDONALD")).fst = "Mcdonald" ∧
    (formatNameAndCreateMessage (some "mcDONALD")).fst ≠ "McDONALD" := by
  exact ⟨by decide, by decide⟩

/-- C5 as amended: for every non-empty first name token the composed
display name has its first character uppercased and every remaining
character **lowercased** (Python `str.capitalize`), not left unchanged. -/
theorem C5_amended (s : String) (h : s ≠ "") (c : Char) (cs : List Char)
    (h2 : firstToken s = String.mk (c :: cs)) :
    (formatNameAndCreateMessage (some s)).fst =
      String.mk (Char.toUpper c :: cs.map Char.toLower) := by
  show (if s = "" then "Cliente" else pyCapitalize (firstToken s)) = _
  rw [if_neg h, h2]
  rfl

/-- Witness for C5's amended theorem at the concrete name `"mcDONALD x"`:
its first token is `mcDONALD` and the display name is `Mcdonald`. -/
theorem C5_amended_witness :
    (formatNameAndCreateMessage (some "mcDONALD x")).fst =
      String.mk (Char.toUpper 'm' :: ['c', 'D', 'O', 'N', 'A', 'L', 'D'].map Char.toLower) :=
  C5_amended "mcDONALD x" (by decide) 'm' ['c', 'D', 'O', 'N', 'A', 'L', 'D'] (by decide)

/-- `List.set` at one index does not change `getD` at another. -/
theorem getD_set_ne (v d : Cell) :
    ∀ (l : List Cell) (i j : Nat), i ≠ j → (l.set i v).getD j d = l.getD j d
  | [], _, _, _ => rfl
  | _ :: _, 0, 0, h => absurd rfl h
  | _ :: _, 0, _ + 1, _ => rfl
  | _ :: _, _ + 1, 0, _ => rfl
  | _ :: l, i + 1, j + 1, h =>
      getD_set_ne v d l i j (fun e => h (by rw [e]))

/-- A successful `colIdx` lookup returns an index holding that name. -/
theorem colIdx_get? :
    ∀ (cols : List String) (name : String) (i : Nat),
      colIdx cols name = some i → cols.get? i = some name
  | [], _, _, h => by simp [colIdx] at h
  | c :: cs, name, i, h => by
      by_cases hc : c = name
      · simp [colIdx, hc] at h
        subst h
        simp [hc]
      · simp [colIdx, hc, Option.map_eq_some'] at h
        obtain ⟨i', h1, h2⟩ := h
        subst h2
        simpa using colIdx_get? cs name i' h1

/-- Lookups of two different column names give different indices. -/
theorem colIdx_ne {cols : List String} {n1 n2 : String} {i j : Nat}
    (h1 : colIdx cols n1 = some i) (h2 : colIdx cols n2 = some j)
    (hne : n1 ≠ n2) : i ≠ j := by
  intro e
  subst e
  have g1 := colIdx_get? cols n1 i h1
  have g2 := colIdx_get? cols n2 i h2
  rw [g1] at g2
  exact hne (by injection g2)

/-- Attempts-count normalization does not touch the `Codigo Cliente` cell. -/
theorem idOf_normalizeRow (cols : List String) (r : Row) :
    idOf cols (normalizeRow cols r) = idOf cols r := by
  unfold idOf normalizeRow
  cases hf : colIdx cols COL_FILTER with
  | none => rfl
  | some j =>
      cases hi : colIdx cols COL_ID with
      | none => rfl
      | some i =>
          have hij : j ≠ i := colIdx_ne hf hi (by decide)
          simp only [getAt, setAt]
          exact getD_set_ne _ _ r j i hij

/-- Rows kept by `dedupFirst` avoid the already-seen keys and carry
pairwise distinct `Codigo Cliente` values. -/
theorem dedupFirst_spec (cols : List String) :
    ∀ (rows : List Row) (seen : List Cell),
      (∀ r ∈ dedupFirst cols rows seen, idOf cols r ∉ seen) ∧
      (dedupFirst cols rows seen).Pairwise (fun a b => idOf cols a ≠ idOf cols b)
  | [], seen => by simp [dedupFirst]
  | r :: rs, seen => by
      by_cases h : idOf cols r ∈ seen
      · simpa [dedupFirst, h] using dedupFirst_spec cols rs seen
      · have ih := dedupFirst_spec cols rs (idOf cols r :: seen)
        simp only [dedupFirst, if_neg h]
        constructor
        · intro x hx
          rcases List.mem_cons.mp hx with he | ht
          · subst he; exact h
          · intro hs
            exact ih.1 x ht (List.mem_cons_of_mem _ hs)
        · rw [List.pairwise_cons]
          refine ⟨?_, ih.2⟩
          intro b hb
          intro e
          exact ih.1 b hb (e ▸ List.mem_cons_self _ _)

/-- Deduplication never lengthens the table. -/
theorem dedupFirst_length_le (cols : List String) :
    ∀ (rows : List Row) (seen : List Cell),
      (dedupFirst cols rows seen).length ≤ rows.length
  | [], _ => Nat.le_refl 0
  | r :: rs, seen => by
      by_cases h : idOf cols r ∈ seen
      · simp only [dedupFirst, if_pos h]
        exact Nat.le_succ_of_le (dedupFirst_length_le cols rs seen)
      · simp only [dedupFirst, if_neg h, List.length_cons]
        exact Nat.succ_le_succ (dedupFirst_length_le cols rs _)

/-- After dedup and normalization, `Codigo Cliente` values are pairwise
distinct. -/
theorem dedupedNormalized_pairwise (t : Table) :
    (dedupedNormalized t).Pairwise (fun a b => idOf t.cols a ≠ idOf t.cols b) := by
  unfold dedupedNormalized
  rw [List.pairwise_map]
  refine ((dedupFirst_spec t.cols t.rows []).2).imp ?_
  intro a b hne
  rw [idOf_normalizeRow, idOf_normalizeRow]
  exact hne

/-- The qualified set never exceeds the original row count. -/
theorem qualifiedRows_length_le (t : Table) :
    (qualifiedRows t).length ≤ t.rows.length := by
  unfold qualifiedRows filterQualified
  calc (List.filter _ (dedupedNormalized t)).length
      ≤ (dedupedNormalized t).length := List.length_filter_le _ _
    _ = (dedupFirst t.cols t.rows []).length := List.length_map _ _
    _ ≤ t.rows.length := dedupFirst_length_le t.cols t.rows []

/-- C8: because app.py line 46 deduplicates before the grouped status
check of lines 56-57, every `Codigo Cliente` group the check sees is a
single row, so the code's combined filter (own status is the target, no
other status in the group, attempts equal 0) returns exactly the rows of
the simpler row-wise filter (own status is the target and attempts equal
0): the grouped has-other-status computation is redundant for every input
table. -/
theorem C8_group_check_redundant (t : Table) :
    qualifiedRows t = rowwiseQualifiedRows t := by
  unfold qualifiedRows rowwiseQualifiedRows filterQualified
  apply List.filter_congr
  intro r hr
  unfold rowQualifies
  by_cases hs : statusOf t.cols r = Cell.str targetLabel
  · have hno : hasOtherOf t.cols (dedupedNormalized t) r = false := by
      unfold hasOtherOf
      rw [List.any_eq_false]
      intro r2 hr2
      simp only [Bool.and_eq_true, decide_eq_true_eq, not_and]
      intro hid hst
      by_cases he : r2 = r
      · exact hst (he ▸ hs)
      · exact absurd hid
          ((dedupedNormalized_pairwise t).forall (fun _ _ => Ne.symm) hr2 hr he)
    simp [hs, hno]
  · simp [hs]

/-- C6: the attempts normalization of app.py line 53 sends every
unparsable cell to the sentinel `-1`, which never equals `0`; consequently
every row in the qualified list has normalized attempts exactly `0`, and
no row whose attempts cell failed to parse ever qualifies. -/
theorem C6_qualified_attempts_zero :
    (∀ c : Cell, pyToNumeric c = none →
      normalizeAttempts c = Dec.ofInt (-1) ∧ normalizeAttempts c ≠ Dec.ofInt 0) ∧
    ∀ (t : Table), ∀ r ∈ qualifiedRows t, attemptsOf t.cols r = Cell.num (Dec.ofInt 0) := by
  constructor
  · intro c h
    unfold normalizeAttempts
    rw [h]
    exact ⟨rfl, by decide⟩
  · intro t r hr
    unfold qualifiedRows filterQualified at hr
    have hp := (List.mem_filter.mp hr).2
    unfold rowQualifies at hp
    simp only [Bool.and_eq_true, decide_eq_true_eq] at hp
    exact hp.2

/-- Witness for C6 at concrete inputs: the unparsable cell `"abc"`
normalizes to `-1 ≠ 0`, and the single qualified row of `tblOneLead`
carries attempts `0`. -/
theorem C6_witness :
    (normalizeAttempts (Cell.str "abc") = Dec.ofInt (-1) ∧
      normalizeAttempts (Cell.str "abc") ≠ Dec.ofInt 0) ∧
    attemptsOf tblOneLead.cols rowOneLead = Cell.num (Dec.ofInt 0) :=
  ⟨C6_qualified_attempts_zero.1 (Cell.str "abc") (by decide),
   C6_qualified_attempts_zero.2 tblOneLead rowOneLead (by decide)⟩

/-- C7: when the schema check fails, `process_data` raises (returns the
error branch) carrying exactly the list of missing required columns — the
complete list, not just the first — and produces no table or metrics; the
membership characterization makes completeness explicit. -/
theorem C7_schema_error (t : Table) (h : schemaOk t = false) :
    processData t = Except.error (missingCols t) ∧
    ∀ c : String, c ∈ missingCols t ↔ c ∈ requiredCols ∧ c ∉ t.cols := by
  constructor
  · unfold processData
    simp [h]
  · intro c
    unfold missingCols
    rw [List.mem_filter]
    simp

/-- Witness for C7 at a table having only two of the seven required
columns. -/
theorem C7_witness :
    processData tblMissingCols = Except.error (missingCols tblMissingCols) ∧
    ∀ c : String, c ∈ missingCols tblMissingCols ↔
      c ∈ requiredCols ∧ c ∉ tblMissingCols.cols :=
  C7_schema_error tblMissingCols (by decide)

/-- C2 as amended: for every accepted input,
`original_count = removed_filter + len(qualified_leads)` — the identity
claimed with the `removed_duplicates` term added holds only when
`removed_duplicates = 0`, because line 66 computes `removed_filter`
against the pre-dedup count. -/
theorem C2_amended (t : Table) (out : Table) (m : Metrics)
    (h : processData t = Except.ok (out, m)) :
    m.original_count = m.removed_filter + out.rows.length := by
  unfold processData at h
  by_cases hs : schemaOk t = true
  · rw [if_pos hs] at h
    by_cases he : (qualifiedRows t).isEmpty = true
    · rw [if_pos he] at h
      simp only [Except.ok.injEq, Prod.mk.injEq] at h
      obtain ⟨h1, h2⟩ := h
      subst h2
      subst h1
      simp only [metricsOf]
      exact (Nat.sub_add_cancel (qualifiedRows_length_le t)).symm
    · rw [if_neg he] at h
      simp only [Except.ok.injEq, Prod.mk.injEq] at h
      obtain ⟨h1, h2⟩ := h
      subst h2
      subst h1
      simp only [metricsOf, List.length_map]
      exact (Nat.sub_add_cancel (qualifiedRows_length_le t)).symm
  · rw [if_neg hs] at h
    simp at h

/-- Witness for C2's amended identity on `tblDupRows`:
`2 = 2 + 0`. -/
theorem C2_amended_witness :
    (Metrics.mk 2 1 2).original_count =
      (Metrics.mk 2 1 2).removed_filter + (Table.mk requiredCols []).rows.length :=
  C2_amended tblDupRows ⟨requiredCols, []⟩ ⟨2, 1, 2⟩ (by rfl)

/-- C10: on an accepted input with zero qualifying rows, `process_data`
returns early (app.py lines 72-73) with a lead table whose columns are
exactly the input's columns — the derived `Cliente_Formatado`,
`Mensagem_Personalizada` and `Valor_BRL` columns are not added — while a
non-empty result carries those three extra columns; the metrics triple is
fully populated in both cases. -/
theorem C10_empty_shape (t : Table) (out : Table) (m : Metrics)
    (h : processData t = Except.ok (out, m)) :
    (out.rows = [] → out.cols = t.cols) ∧
    (out.rows ≠ [] → out.cols = t.cols ++ [COL_OUT_NAME, COL_OUT_MSG, COL_BRL]) ∧
    m.original_count = t.rows.length ∧
    m.removed_duplicates = t.rows.length - (dedupFirst t.cols t.rows []).length ∧
    m.removed_filter = t.rows.length - (qualifiedRows t).length := by
  unfold processData at h
  by_cases hs : schemaOk t = true
  · rw [if_pos hs] at h
    by_cases he : (qualifiedRows t).isEmpty = true
    · rw [if_pos he] at h
      simp only [Except.ok.injEq, Prod.mk.injEq] at h
      obtain ⟨h1, h2⟩ := h
      subst h2
      subst h1
      exact ⟨fun _ => rfl, fun hne => absurd (List.isEmpty_iff.mp he) hne,
             rfl, rfl, rfl⟩
    · rw [if_neg he] at h
      simp only [Except.ok.injEq, Prod.mk.injEq] at h
      obtain ⟨h1, h2⟩ := h
      subst h2
      subst h1
      refine ⟨?_, fun _ => rfl, rfl, rfl, rfl⟩
      intro h0
      simp only [List.map_eq_nil_iff] at h0
      exact absurd (List.isEmpty_iff.mpr h0) he
  · rw [if_neg hs] at h
    simp at h

/-- Witness for C10 on `tblNoLeads`: the empty result keeps the input's
seven columns and the metrics read `(1, 0, 1)`. -/
theorem C10_witness :
    ((Table.mk requiredCols []).rows = [] →
      (Table.mk requiredCols []).cols = tblNoLeads.cols) ∧
    ((Table.mk requiredCols []).rows ≠ [] →
      (Table.mk requiredCols []).cols =
        tblNoLeads.cols ++ [COL_OUT_NAME, COL_OUT_MSG, COL_BRL]) ∧
    (Metrics.mk 1 0 1).original_count = tblNoLeads.rows.length ∧
    (Metrics.mk 1 0 1).removed_duplicates =
      tblNoLeads.rows.length - (dedupFirst tblNoLeads.cols tblNoLeads.rows []).length ∧
    (Metrics.mk 1 0 1).removed_filter =
      tblNoLeads.rows.length - (qualifiedRows tblNoLeads).length :=
  C10_empty_shape tblNoLeads ⟨requiredCols, []⟩ ⟨1, 0, 1⟩ (by rfl)

/-- Write a heap cell: an in-place pandas mutation of the object at
reference `r`. -/
def heapSet (h : List Table) (r : Nat) (t : Table) : List Table := h.set r t

/-- Read the object a reference points to. -/
def heapGet (h : List Table) (r : Nat) : Table := h.getD r ⟨[], []⟩

/-- `process_data` as a trace over an explicit heap of DataFrame objects,
recording which pandas call allocates a new object and which mutates one
in place.  References are list positions, assigned in allocation order:

* ref 0 — the caller's table, bound to `df_input` for the whole call;
* ref 1 — `df = df_input.copy()` (line 31) allocates; the schema check
  (line 35) reads it;
* ref 2 — `df_unique = df.drop_duplicates(subset=[COL_ID], keep='first')`
  (line 46) allocates; after `df = df_unique` (line 48), the column write
  `df[COL_FILTER] = pd.to_numeric(...).fillna(-1)` (line 53) mutates ref 2
  in place;
* ref 3 — the boolean-mask selection `df_qualified = df[...]`
  (lines 60-64) allocates;
* ref 4 — `df = df_qualified.reset_index(drop=True)` (line 69) allocates;
  when the result is non-empty, the four column writes of lines 105-125
  mutate ref 4 in place;
* the returned reference is ref 4 (lines 73 and 127).

The branch conditions read the objects just allocated, whose tables are
definitionally the values written here in terms of `input`. -/
def processDataHeap (input : Table) : List Table × Except (List String) Nat :=
  let h0 := [input]
  let h1 := h0 ++ [heapGet h0 0]
  if schemaOk input then
    let h2 := h1 ++ [⟨(heapGet h1 1).cols, dedupFirst (heapGet h1 1).cols (heapGet h1 1).rows []⟩]
    let h3 := heapSet h2 2
      ⟨(heapGet h2 2).cols, (heapGet h2 2).rows.map (normalizeRow (heapGet h2 2).cols)⟩
    let h4 := h3 ++ [⟨(heapGet h3 2).cols, filterQualified (heapGet h3 2).cols (heapGet h3 2).rows⟩]
    let h5 := h4 ++ [heapGet h4 3]
    if (qualifiedRows input).isEmpty then (h5, Except.ok 4)
    else
      let h6 := heapSet h5 4
        ⟨(heapGet h5 4).cols, (heapGet h5 4).rows.map (astypeNameRow (heapGet h5 4).cols)⟩
      let h7 := heapSet h6 4
        ⟨(heapGet h6 4).cols ++ [COL_OUT_NAME, COL_OUT_MSG],
         (heapGet h6 4).rows.map (addMsgCols (heapGet h6 4).cols)⟩
      let h8 := heapSet h7 4
        ⟨(heapGet h7 4).cols ++ [COL_BRL],
         (heapGet h7 4).rows.map (addBrlCol (heapGet h7 4).cols)⟩
      (h8, Except.ok 4)
  else (h1, Except.error (missingCols input))

/-- C9: `process_data` never mutates its input table.  In the heap trace,
every in-place write (`heapSet`) targets reference 2 or 4 — objects
allocated inside the call by `copy`, `drop_duplicates`, the mask selection
or `reset_index` — so on every control path the object at reference 0,
the caller's `df_input`, still holds the original table when the call
returns. -/
theorem C9_no_input_mutation (input : Table) :
    (processDataHeap input).fst.get? 0 = some input := by
  unfold processDataHeap heapSet heapGet
  split
  · split
    · rfl
    · rfl
  · rfl
